import Mathlib

/-!
Shallow embedding of the chess-backend socket server (src/socket/socket.js).

The server keeps two in-memory keyed collections of rooms: tic-tac-toe
(grid) rooms and chess rooms.  Each socket event handler is embedded as a
pure function from the room value looked up in the collection (an
`Option` room state, `none` meaning the key is absent) to the room value
stored back (again `Option`, `none` meaning the room was deleted)
together with the list of events it emits.  Each emitted event carries a
target: the originating connection only (`sender`) or the whole room
(`room`).

JavaScript-value conventions used throughout:
* a JS string field that can be "X"/"O"/null is `Option Mark`;
* JS `undefined` obtained by out-of-range array indexing is the outer
  `none` of `Option (Option Mark)`;
* JS objects used as string-keyed maps are association lists
  `List (String × α)`;
* JS falsiness of a string argument is the `= ""` test.
-/

namespace ChessBackend

/-- The two grid marks, the JS strings "X" and "O". -/
inductive Mark where
  | X
  | O
deriving DecidableEq, Repr

/-- `game.currentPlayer === "X" ? "O" : "X"` (socket.js line 134). -/
def flipMark : Mark → Mark
  | .X => .O
  | .O => .X

/-- The value returned by `checkWinner` (socket.js lines 685-703): either the
winning mark string `board[a]`, or — when no pattern matches — the literal
object `\x7b valid: true, check: false, checkmate: false, stalemate: false \x7d`
from line 702. -/
inductive TttWinner where
  | mark (m : Mark)
  | fallbackObj
deriving DecidableEq, Repr

/-- JS truthiness of the `checkWinner` result: the mark strings "X"/"O" are
non-empty strings, hence truthy, and every JS object is truthy, so both
constructors are truthy. -/
def TttWinner.jsTruthy : TttWinner → Bool
  | .mark _ => true
  | .fallbackObj => true

/-- The eight `winPatterns` of socket.js lines 686-695. -/
def winPatterns : List (Nat × Nat × Nat) :=
  [(0, 1, 2), (3, 4, 5), (6, 7, 8), (0, 3, 6), (1, 4, 7), (2, 5, 8), (0, 4, 8), (2, 4, 6)]

/-- The pattern loop of `checkWinner` (socket.js lines 697-701):
`if (board[a] && board[a] === board[b] && board[a] === board[c]) return board[a]`.
`board.getD i none` models `board[i]` collapsed to its truthiness-relevant
value (out-of-range `undefined` and `null` are both falsy and both fail the
strict equality with a mark string). -/
def checkWinnerAux (board : List (Option Mark)) : List (Nat × Nat × Nat) → TttWinner
  | [] => .fallbackObj
  | (a, b, c) :: rest =>
    match board.getD a none with
    | some m =>
      if board.getD b none = some m ∧ board.getD c none = some m then .mark m
      else checkWinnerAux board rest
    | none => checkWinnerAux board rest

/-- `checkWinner` (socket.js lines 685-703). -/
def checkWinner (board : List (Option Mark)) : TttWinner :=
  checkWinnerAux board winPatterns

/-- A grid room value as stored in the `games` map (socket.js lines 42-49). -/
structure TttGame where
  board : List (Option Mark)
  currentPlayer : Mark
  players : List String
  playerNames : List (String × String)
  gameStarted : Bool
  gameOver : Bool
deriving DecidableEq, Repr

/-- Destination of an emitted event: `socket.emit` (sender only) or
`io.to(roomId).emit` (the whole room). -/
inductive Target where
  | sender
  | room
deriving DecidableEq, Repr

/-- The `winner` field of a broadcast `tictactoe-state` payload: a mark
string, the string "draw", JS `null`, or the fallback object returned by
`checkWinner` when no line matched. -/
inductive WinnerField where
  | mark (m : Mark)
  | draw
  | nullv
  | obj
deriving DecidableEq, Repr

/-- Events emitted by the grid handlers that the claims observe. -/
inductive TttEvent where
  | error (message : String)
  | state (board : List (Option Mark)) (currentPlayer : Mark) (players : List String)
      (playerNames : List (String × String)) (gameStarted : Bool) (gameOver : Bool)
      (winner : WinnerField)
  | playerDisconnected (disconnectedPlayer : String) (remainingPlayers : Nat)
  | joined (roomId : String) (players : Nat) (gameStarted : Bool)
  | waiting (roomId : String) (players : Nat)
deriving DecidableEq, Repr

/-- One emitted event together with its destination. -/
structure Emit (ε : Type) where
  target : Target
  event : ε
deriving DecidableEq, Repr

/-- The winner value as placed into the broadcast payload. -/
def TttWinner.toField : TttWinner → WinnerField
  | .mark m => .mark m
  | .fallbackObj => .obj

/-- `game.board[index]` for a JS numeric index: `none` is JS `undefined`
(out of range), `some none` is a `null` cell, `some (some m)` is a mark. -/
def boardAt (board : List (Option Mark)) (i : Int) : Option (Option Mark) :=
  if 0 ≤ i then board.get? i.toNat else none

/-- The `tictactoe-move` handler (socket.js lines 89-146).  `index?` is
`none` when the payload field is `undefined`.  The returned pair is the
room value stored back into the `games` map and the list of emitted
events. -/
def tttMove (roomId : String) (g? : Option TttGame) (userId : String)
    (index? : Option Int) : Option TttGame × List (Emit TttEvent) :=
  match index? with
  | none => (g?, [⟨.sender, .error "Invalid move data"⟩])
  | some index =>
    if roomId = "" then (g?, [⟨.sender, .error "Invalid move data"⟩])
    else
      match g? with
      | none => (none, [⟨.sender, .error "Game not found"⟩])
      | some game =>
        if game.gameStarted = false then
          (some game, [⟨.sender, .error "Game hasn\x27t started"⟩])
        else if game.gameOver = true then
          (some game, [⟨.sender, .error "Game is over"⟩])
        else if boardAt game.board index ≠ some none then
          (some game, [⟨.sender, .error "Cell already occupied"⟩])
        else
          match game.players.findIdx? (fun p => p == userId) with
          | none => (some game, [⟨.sender, .error "You\x27re not a player in this game"⟩])
          | some playerIndex =>
            let expectedPlayer := if playerIndex = 0 then Mark.X else Mark.O
            if game.currentPlayer ≠ expectedPlayer then
              (some game, [⟨.sender, .error "Not your turn"⟩])
            else
              let board1 := game.board.set index.toNat (some game.currentPlayer)
              let winner := checkWinner board1
              let isDraw := (!winner.jsTruthy) && board1.all (fun cell => cell.isSome)
              let newGameOver := winner.jsTruthy || isDraw
              let newCurrent :=
                if newGameOver = false then flipMark game.currentPlayer
                else game.currentPlayer
              let game' := { game with
                board := board1, gameOver := newGameOver, currentPlayer := newCurrent }
              (some game',
               [⟨.room, .state game'.board game'.currentPlayer game'.players
                   game'.playerNames game'.gameStarted game'.gameOver
                   (if winner.jsTruthy then winner.toField
                    else if isDraw then .draw else .nullv)⟩])

/-- The `tictactoe-reset` handler (socket.js lines 148-165). -/
def tttReset (g? : Option TttGame) : Option TttGame × List (Emit TttEvent) :=
  match g? with
  | none => (none, [])
  | some game =>
    let game' := { game with
      board := List.replicate 9 none, currentPlayer := Mark.X, gameOver := false }
    (some game',
     [⟨.room, .state game'.board game'.currentPlayer game'.players game'.playerNames
         game'.gameStarted game'.gameOver .nullv⟩])

/-- The per-room body of the grid sweep in the `disconnect` handler
(socket.js lines 514-539): remove the user at its found index, delete the
room when empty, otherwise broadcast a disconnect notice and a state
snapshot whose `gameStarted`/`gameOver` fields are the literals
`false`/`true` — the stored room flags are not written. -/
def gridDisconnect (game : TttGame) (userId : String) :
    Option TttGame × List (Emit TttEvent) :=
  match game.players.findIdx? (fun p => p == userId) with
  | none => (some game, [])
  | some playerIndex =>
    let players' := game.players.eraseIdx playerIndex
    let names' := game.playerNames.filter (fun p => p.1 != userId)
    if players'.length = 0 then (none, [])
    else
      let game' := { game with players := players', playerNames := names' }
      (some game',
       [⟨.room, .playerDisconnected userId players'.length⟩,
        ⟨.room, .state game'.board game'.currentPlayer game'.players game'.playerNames
            false true .nullv⟩])

/-- Spec-side predicate (refinement reference, from the spec's words, not the
source): a winning line exists — one of the eight 3-in-a-row patterns whose
three indexed cells are equal and non-empty. -/
def specHasLine (board : List (Option Mark)) : Bool :=
  winPatterns.any (fun t =>
    match board.getD t.1 none with
    | some m => decide (board.getD t.2.1 none = some m) && decide (board.getD t.2.2 none = some m)
    | none => false)

/-- Spec-side predicate: all nine cells occupied. -/
def specBoardFull (board : List (Option Mark)) : Bool :=
  board.all (fun c => c.isSome)


/-! ## Chess model

The chess rules engine (the npm package chess.js) lives outside this
repository; per the spec it is an opaque collaborator.  It is embedded as
an abstract `Engine` record of the capabilities socket.js calls on it
(position creation, piece lookup, move attempt, terminal-state queries,
serialization); every theorem about the chess handlers is proved for an
arbitrary such engine. -/

/-- The two chess colors, the JS strings "white" and "black". -/
inductive Color where
  | white
  | black
deriving DecidableEq, Repr

/-- `game.currentPlayer === "white" ? "black" : "white"` (socket.js line 378). -/
def flipColor : Color → Color
  | .white => .black
  | .black => .white

/-- The color name string as interpolated into error messages. -/
def colorStr : Color → String
  | .white => "white"
  | .black => "black"

/-- chess.js piece color letters. -/
inductive PieceColor where
  | w
  | b
deriving DecidableEq, Repr

/-- A chess.js piece record as returned by `chess.get(square)`. -/
structure EnginePiece where
  color : PieceColor
  ptype : String
deriving DecidableEq, Repr

/-- The fields of a chess.js accepted-move record that socket.js reads. -/
structure MoveInfo where
  piece : String
  san : String
deriving DecidableEq, Repr

/-- The argument object of `chess.move(\x7b from, to, promotion \x7d)`. -/
structure MoveReq where
  fromSq : String
  toSq : String
  promotion : Option String
deriving DecidableEq, Repr

/-- The rules-engine collaborator: the operations socket.js invokes on a
chess.js instance.  `move` returns the successor position and the
accepted-move record, or `none` on rejection (a failed chess.js move does
not change the position). -/
structure Engine where
  Pos : Type
  init : Pos
  get : Pos → String → Option EnginePiece
  move : Pos → MoveReq → Option (Pos × MoveInfo)
  movesFrom : Pos → String → List String
  inCheck : Pos → Bool
  isCheckmate : Pos → Bool
  isStalemate : Pos → Bool
  fen : Pos → String

/-- The stored `winner` value of a chess room: a color or the string "draw"
(`none` at the `Option` layer is JS `null`). -/
inductive ChessWinner where
  | color (c : Color)
  | draw
deriving DecidableEq, Repr

/-- An entry of the `moves` log (socket.js lines 367-374). -/
structure MoveRec where
  fromSq : String
  toSq : String
  piece : String
  player : Color
  timestamp : Nat
  san : String
deriving DecidableEq, Repr

/-- A chess room value as stored in the `chessGames` map
(`createChessGame`, socket.js lines 586-601). -/
structure ChessGame (P : Type) where
  chess : P
  currentPlayer : Color
  players : List String
  playerNames : List (String × String)
  playerColors : List (String × Color)
  gameStarted : Bool
  gameOver : Bool
  winner : Option ChessWinner
  moves : List MoveRec
  check : Bool
  checkmate : Bool
  stalemate : Bool
deriving DecidableEq, Repr

/-- JS object property read `obj[key]` on a string-keyed map. -/
def alookup {α : Type} (l : List (String × α)) (k : String) : Option α :=
  (l.find? (fun p => p.1 == k)).map (fun p => p.2)

/-- JS object property write `obj[key] = v` (set-or-overwrite). -/
def aset {α : Type} (l : List (String × α)) (k : String) (v : α) : List (String × α) :=
  l.filter (fun p => p.1 != k) ++ [(k, v)]

/-- JS `delete obj[key]`. -/
def adelete {α : Type} (l : List (String × α)) (k : String) : List (String × α) :=
  l.filter (fun p => p.1 != k)

/-- `createChessGame` (socket.js lines 586-601). -/
def createChessGame (E : Engine) : ChessGame E.Pos :=
  { chess := E.init, currentPlayer := .white, players := [], playerNames := [],
    playerColors := [], gameStarted := false, gameOver := false, winner := none,
    moves := [], check := false, checkmate := false, stalemate := false }

/-- The common `chess-state` payload fields (the `roomId` field is the
addressing key and is omitted). -/
structure ChessStatePayload where
  fen : String
  currentPlayer : Color
  players : List String
  playerNames : List (String × String)
  playerColors : List (String × Color)
  gameStarted : Bool
  gameOver : Bool
  winner : Option ChessWinner
  check : Bool
  checkmate : Bool
  stalemate : Bool
  waitingForPlayer : Bool
deriving DecidableEq, Repr

/-- The `lastMove` summary attached to the post-move broadcast. -/
structure LastMove where
  fromSq : String
  toSq : String
  piece : String
  player : Color
  san : String
deriving DecidableEq, Repr

/-- Events emitted by the chess handlers that the claims observe. -/
inductive ChessEvent where
  | error (message : String)
  | state (payload : ChessStatePayload) (lastMove : Option LastMove)
  | roomCreated (playerColor : Color) (playerName : String)
  | gameStartedEv (players : List String) (playerNames : List (String × String))
      (playerColors : List (String × Color))
  | moveConfirmed (fromSq : String) (toSq : String) (piece : String) (fen : String)
      (san : String)
  | playerDisconnected (disconnectedPlayer : String) (remainingPlayers : Nat)
  | chatReceived (userName : String) (message : List Char) (timestamp : String)
deriving DecidableEq, Repr

/-- The `chess-state` payload built from the stored room state, as emitted at
every site except the disconnect sweep (which overrides some fields with
literals). -/
def statePayload (E : Engine) (g : ChessGame E.Pos) (waiting : Bool) : ChessStatePayload :=
  { fen := E.fen g.chess, currentPlayer := g.currentPlayer, players := g.players,
    playerNames := g.playerNames, playerColors := g.playerColors,
    gameStarted := g.gameStarted, gameOver := g.gameOver, winner := g.winner,
    check := E.inCheck g.chess, checkmate := E.isCheckmate g.chess,
    stalemate := E.isStalemate g.chess, waitingForPlayer := waiting }

/-- `promotion || undefined` (socket.js line 650): the empty string is falsy
and collapses to `undefined`. -/
def jsOrUndefined (p : Option String) : Option String :=
  match p with
  | some s => if s = "" then none else some s
  | none => none

/-- The return value of `validateAndExecuteMove`. -/
inductive MoveResult (P : Type) where
  | invalid (error : String)
  | ok (pos : P) (check : Bool) (checkmate : Bool) (stalemate : Bool) (move : MoveInfo)

/-- `validateAndExecuteMove` (socket.js lines 603-683): reject when no piece
sits on the from-square or when the piece is not the current player\x27s;
otherwise attempt the move through the engine, and on engine rejection
report the legal destinations from the from-square. -/
def validateAndExecuteMove (E : Engine) (g : ChessGame E.Pos) (fromSq toSq : String)
    (promotion : Option String) : MoveResult E.Pos :=
  match E.get g.chess fromSq with
  | none => .invalid ("No piece found at " ++ fromSq)
  | some piece =>
    let pieceColor := if piece.color = .w then Color.white else Color.black
    if pieceColor ≠ g.currentPlayer then
      .invalid ("It\x27s " ++ colorStr g.currentPlayer ++
        "\x27s turn, but you\x27re trying to move a " ++ colorStr pieceColor ++ " piece")
    else
      match E.move g.chess { fromSq := fromSq, toSq := toSq, promotion := jsOrUndefined promotion } with
      | none =>
        .invalid ("Invalid move from " ++ fromSq ++ " to " ++ toSq ++ ". Possible moves: " ++
          String.intercalate ", " (E.movesFrom g.chess fromSq))
      | some (pos, mv) => .ok pos (E.inCheck pos) (E.isCheckmate pos) (E.isStalemate pos) mv

/-- The `chess-create-room` handler (socket.js lines 167-207), restricted to
the room value it installs under the generated id and the events it emits. -/
def chessCreateRoom (E : Engine) (userId userName : String) :
    Option (ChessGame E.Pos) × List (Emit ChessEvent) :=
  if userName = "" ∨ userId = "" then (none, [⟨.sender, .error "Invalid user data"⟩])
  else
    let g0 := createChessGame E
    let game := { g0 with
      players := [userId],
      playerNames := aset g0.playerNames userId userName,
      playerColors := aset g0.playerColors userId .white }
    (some game,
     [⟨.sender, .roomCreated .white userName⟩,
      ⟨.sender, .state (statePayload E game true) none⟩])

/-- The `chess-join-room` handler (socket.js lines 209-291). -/
def chessJoinRoom (E : Engine) (roomId : String) (g? : Option (ChessGame E.Pos))
    (userId userName : String) : Option (ChessGame E.Pos) × List (Emit ChessEvent) :=
  if roomId = "" ∨ userName = "" ∨ userId = "" then
    (g?, [⟨.sender, .error "Invalid join data"⟩])
  else
    match g? with
    | none => (none, [⟨.sender, .error "Room not found"⟩])
    | some game =>
      if game.players.contains userId then
        (some game,
         [⟨.room, .state (statePayload E game (decide (game.players.length < 2))) none⟩])
      else if 2 ≤ game.players.length then
        (some game, [⟨.sender, .error "Room is full"⟩])
      else
        let game' := { game with
          players := game.players ++ [userId],
          playerNames := aset game.playerNames userId userName,
          playerColors := aset game.playerColors userId .black,
          gameStarted := true }
        (some game',
         [⟨.room, .gameStartedEv game'.players game'.playerNames game'.playerColors⟩,
          ⟨.room, .state (statePayload E game' false) none⟩])

/-- The `chess-move` handler (socket.js lines 293-454).  The unvalidated
`piece` payload field is only logged and is omitted; `now` stands for
`Date.now()`.  The deferred 5-second room deletion scheduled on game end is
asynchronous and is not part of the handler\x27s immediate effect. -/
def chessMove (E : Engine) (roomId : String) (g? : Option (ChessGame E.Pos))
    (userId fromSq toSq : String) (promotion : Option String) (now : Nat) :
    Option (ChessGame E.Pos) × List (Emit ChessEvent) :=
  if roomId = "" ∨ fromSq = "" ∨ toSq = "" then
    (g?, [⟨.sender, .error "Invalid move data"⟩])
  else
    match g? with
    | none => (none, [⟨.sender, .error "Game not found"⟩])
    | some game =>
      if game.gameStarted = false then
        (some game, [⟨.sender, .error "Game hasn\x27t started"⟩])
      else if game.gameOver = true then
        (some game, [⟨.sender, .error "Game is over"⟩])
      else
        match alookup game.playerColors userId with
        | none => (some game, [⟨.sender, .error "Player not found in game"⟩])
        | some playerColor =>
          if playerColor ≠ game.currentPlayer then
            (some game,
             [⟨.sender, .error ("Not your turn. Current player: " ++
                colorStr game.currentPlayer ++ ", Your color: " ++ colorStr playerColor)⟩])
          else
            match validateAndExecuteMove E game fromSq toSq promotion with
            | .invalid err => (some game, [⟨.sender, .error err⟩])
            | .ok pos chk mate stale mv =>
              let game' := { game with
                chess := pos,
                moves := game.moves ++
                  [{ fromSq := fromSq, toSq := toSq, piece := mv.piece,
                     player := playerColor, timestamp := now, san := mv.san }],
                currentPlayer := flipColor game.currentPlayer,
                check := chk, checkmate := mate, stalemate := stale,
                gameOver := mate || stale,
                winner := if mate then some (.color playerColor)
                  else if stale then some .draw else game.winner }
              (some game',
               [⟨.room, .state (statePayload E game' false)
                   (some { fromSq := fromSq, toSq := toSq, piece := mv.piece,
                           player := playerColor, san := mv.san })⟩,
                ⟨.sender, .moveConfirmed fromSq toSq mv.piece (E.fen game'.chess) mv.san⟩])

/-- The `chess-reset` handler (socket.js lines 456-484). -/
def chessReset (E : Engine) (g? : Option (ChessGame E.Pos)) :
    Option (ChessGame E.Pos) × List (Emit ChessEvent) :=
  match g? with
  | none => (none, [])
  | some game =>
    let game' := { game with
      chess := E.init, currentPlayer := Color.white,
      gameOver := false, winner := none, moves := [], check := false,
      checkmate := false, stalemate := false }
    (some game',
     [⟨.room, .state (statePayload E game' (decide (game'.players.length < 2))) none⟩])

/-- The per-room body of the chess sweep in the `disconnect` handler
(socket.js lines 541-576): remove the user, its name and its color; delete
the room when empty; otherwise store `gameStarted = false` and broadcast a
disconnect notice plus a state snapshot whose `gameOver`/`winner` fields are
the literals `false`/`null` (the stored `gameOver`/`winner` are not
written). -/
def chessDisconnect (E : Engine) (game : ChessGame E.Pos) (userId : String) :
    Option (ChessGame E.Pos) × List (Emit ChessEvent) :=
  match game.players.findIdx? (fun p => p == userId) with
  | none => (some game, [])
  | some playerIndex =>
    let players' := game.players.eraseIdx playerIndex
    let names' := adelete game.playerNames userId
    let colors' := adelete game.playerColors userId
    if players'.length = 0 then (none, [])
    else
      let game' := { game with
        players := players', playerNames := names',
        playerColors := colors', gameStarted := false }
      (some game',
       [⟨.room, .playerDisconnected userId players'.length⟩,
        ⟨.room, .state { statePayload E game' true with
            gameOver := false, winner := none } none⟩])

/-- A trivial concrete engine instance, used only to evaluate the chess
handlers at closed inputs (the theorems themselves hold for every engine). -/
def unitEngine : Engine :=
  { Pos := Unit, init := (), get := fun _ _ => none, move := fun _ _ => none,
    movesFrom := fun _ _ => [], inCheck := fun _ => false,
    isCheckmate := fun _ => false, isStalemate := fun _ => false,
    fen := fun _ => "-" }


/-! ## Room identifier generator

`generateRoomId` (socket.js lines 582-584) is
`Math.random().toString(36).substring(2, 8).toUpperCase()`.
`Math.random()` returns a double in `[0,1)`; JS `Number.prototype.toString(36)`
renders `0` as `"0"` and any other such value as `"0."` followed by its
base-36 fraction digits with no trailing zero.  The random source is
represented by that digit list (empty for zero, otherwise ending in a
non-zero digit). -/

/-- One base-36 digit character as produced by `toString(36)`: `0`-`9` then
`a`-`z`. -/
def digit36Char (d : Fin 36) : Char :=
  if d.val < 10 then Char.ofNat (48 + d.val) else Char.ofNat (87 + d.val)

/-- The character list of `Math.random().toString(36)` for the random value
whose base-36 fraction digits are `digits`. -/
def randToString36 (digits : List (Fin 36)) : List Char :=
  if digits = [] then ['0'] else '0' :: '.' :: digits.map digit36Char

/-- `generateRoomId` (socket.js lines 582-584): `substring(2, 8)` keeps the
characters at positions 2 to 7 (clamped to the string length), then
`toUpperCase` maps each character. -/
def generateRoomId (digits : List (Fin 36)) : List Char :=
  (((randToString36 digits).drop 2).take 6).map Char.toUpper

/-- Uppercase-alphanumeric character class: decimal digits and capital
letters. -/
def isUpperAlnum (c : Char) : Bool :=
  (48 ≤ c.toNat && c.toNat ≤ 57) || (65 ≤ c.toNat && c.toNat ≤ 90)

/-! ## Message sanitizer

`sanitizeMessage` (socket.js lines 705-718) is a chain of global string
replacements followed by `slice(0, 200)` and `trim()`.  The recursive
scanners take a fuel argument (always instantiated with the input length,
which each scanning step strictly decreases) so that they are structurally
recursive and evaluate inside the kernel. -/

/-- Scanner for the global regex replace `.replace(/<[^>]+>/g, "")`
(socket.js line 710).  At a `<`, the regex matches up to the first following
`>` provided at least one character lies between them; on a match the
scanner resumes after the `>`, on a mismatch the `<` is kept and scanning
resumes at the next character, exactly as the regex engine advances. -/
def stripTagsFuel : Nat → List Char → List Char
  | 0, cs => cs
  | _ + 1, [] => []
  | fuel + 1, c :: rest =>
    if c = '<' then
      let pre := rest.takeWhile (fun x => x ≠ '>')
      if pre.length = 0 ∨ pre.length = rest.length then c :: stripTagsFuel fuel rest
      else stripTagsFuel fuel (rest.drop (pre.length + 1))
    else c :: stripTagsFuel fuel rest

/-- `.replace(/<[^>]+>/g, "")` on a character list. -/
def stripTags (cs : List Char) : List Char :=
  stripTagsFuel cs.length cs

/-- Scanner for a global fixed-string replace `.replace(/pat/g, rep)`:
leftmost non-overlapping matches, the replacement text is not rescanned. -/
def replaceAllFuel (pat rep : List Char) : Nat → List Char → List Char
  | 0, cs => cs
  | _ + 1, [] => []
  | fuel + 1, c :: rest =>
    if (!pat.isEmpty) && pat.isPrefixOf (c :: rest) then
      rep ++ replaceAllFuel pat rep fuel ((c :: rest).drop pat.length)
    else c :: replaceAllFuel pat rep fuel rest

/-- Global fixed-string replacement on a character list. -/
def replaceAll (pat rep cs : List Char) : List Char :=
  replaceAllFuel pat rep cs.length cs

/-- JS `String.prototype.trim()`: strip leading and trailing whitespace. -/
def jsTrim (cs : List Char) : List Char :=
  ((cs.dropWhile Char.isWhitespace).reverse.dropWhile Char.isWhitespace).reverse

/-- `sanitizeMessage` (socket.js lines 705-718): empty or unset input yields
the empty string; otherwise strip tags, decode the five named entities in
source order, `slice(0, 200)`, then `trim()`. -/
def sanitizeMessage (message : List Char) : List Char :=
  if message = [] then []
  else
    jsTrim ((replaceAll "&#39;".toList "\x27".toList
      (replaceAll "&quot;".toList "\"".toList
        (replaceAll "&gt;".toList ">".toList
          (replaceAll "&lt;".toList "<".toList
            (replaceAll "&amp;".toList "&".toList
              (stripTags message)))))).take 200)


/-! ## Shared fixtures and helper lemmas -/

/-- A started two-player grid room with an empty board. -/
def gameAB : TttGame :=
  { board := List.replicate 9 none, currentPlayer := .X, players := ["u1", "u2"],
    playerNames := [("u1", "P1"), ("u2", "P2")], gameStarted := true, gameOver := false }

/-- The `winner` field of a `tictactoe-state` event. -/
def tttStateWinner : TttEvent → Option WinnerField
  | .state _ _ _ _ _ _ w => some w
  | _ => none

lemma jsTrim_length_le (cs : List Char) : (jsTrim cs).length ≤ cs.length := by
  unfold jsTrim
  calc ((cs.dropWhile Char.isWhitespace).reverse.dropWhile Char.isWhitespace).reverse.length
      = ((cs.dropWhile Char.isWhitespace).reverse.dropWhile Char.isWhitespace).length := by
        simp
    _ ≤ (cs.dropWhile Char.isWhitespace).reverse.length :=
        (List.dropWhile_sublist _).length_le
    _ = (cs.dropWhile Char.isWhitespace).length := by simp
    _ ≤ cs.length := (List.dropWhile_sublist _).length_le

lemma digit36Char_upper_alnum :
    ∀ d : Fin 36, isUpperAlnum (Char.toUpper (digit36Char d)) = true := by decide

lemma alookup_cons {α : Type} (hd : String × α) (tl : List (String × α)) (v : String) :
    alookup (hd :: tl) v = if hd.1 == v then some hd.2 else alookup tl v := by
  by_cases h : hd.1 == v <;> simp [alookup, List.find?_cons, h]

lemma adelete_cons {α : Type} (hd : String × α) (tl : List (String × α)) (u : String) :
    adelete (hd :: tl) u = if hd.1 != u then hd :: adelete tl u else adelete tl u := by
  simp [adelete, List.filter_cons]

lemma alookup_adelete_ne {α : Type} (l : List (String × α)) (u v : String) (h : u ≠ v) :
    alookup (adelete l u) v = alookup l v := by
  induction l with
  | nil => rfl
  | cons hd tl ih =>
    by_cases hk : hd.1 = u
    · have h2 : hd.1 ≠ v := by rw [hk]; exact h
      simp [adelete_cons, alookup_cons, hk, h2, ih, h]
    · by_cases hv : hd.1 = v
      · simp [adelete_cons, alookup_cons, hk, hv, Ne.symm h]
      · simp [adelete_cons, alookup_cons, hk, hv, ih]

lemma alookup_aset_self {α : Type} (l : List (String × α)) (k : String) (v : α) :
    alookup (aset l k v) k = some v := by
  unfold aset alookup
  rw [List.find?_append]
  have hnone : (l.filter (fun p => p.1 != k)).find? (fun p => p.1 == k) = none := by
    rw [List.find?_eq_none]
    intro p hp
    have := List.of_mem_filter hp
    simpa using this
  simp [hnone]

/-! ## Claims -/

/-- C1: the claim says a successful grid move sets `gameOver` exactly when a
3-in-a-row line exists or the board is full, leaving `gameOver = false` on a
partially filled lineless board.  The code violates this: `checkWinner`
falls through to `return \x7b valid: true, ... \x7d` (a truthy object) instead of
a falsy value when no line matches, so `!!winner || isDraw` is true after
every move.  At the failing input — first move of a fresh two-player game —
the stored room has `gameOver = true` although no line exists and the board
is not full, and the broadcast `winner` field carries the fallback object
rather than being unset. -/
theorem c1_move_sets_gameOver_without_line_or_full_board :
    ((tttMove "room1" (some gameAB) "u1" (some 0)).1.map TttGame.gameOver) = some true ∧
    ((tttMove "room1" (some gameAB) "u1" (some 0)).1.map
        (fun g => specHasLine g.board)) = some false ∧
    ((tttMove "room1" (some gameAB) "u1" (some 0)).1.map
        (fun g => specBoardFull g.board)) = some false ∧
    ((tttMove "room1" (some gameAB) "u1" (some 0)).2.map
        (fun e => tttStateWinner e.event)) = [some WinnerField.obj] := by
  decide

/-- C3 counterexample: the claim says the disconnect sweep forces the stored
room state to `gameStarted = false` and `gameOver = true`.  After a player
of `gameAB` disconnects, the stored room still has `gameStarted = true` and
`gameOver = false`: only the broadcast payload carries the degraded flags. -/
theorem c3_stored_flags_not_degraded :
    ((gridDisconnect gameAB "u1").1.map TttGame.gameStarted) = some true ∧
    ((gridDisconnect gameAB "u1").1.map TttGame.gameOver) = some false := by
  decide

/-- C3 (amended): when a user identity disconnects, each grid room containing
it removes the identity from `players` and `playerNames`; an emptied room is
deleted; otherwise the room is kept with its stored `gameStarted`/`gameOver`
flags unchanged, and a disconnect notice plus a state snapshot whose
`gameStarted`/`gameOver` fields are the literals `false`/`true` is broadcast
to the remaining participants. -/
theorem c3_grid_disconnect_removes_and_broadcasts_degraded_state :
    ∀ (g : TttGame) (userId : String) (i : Nat),
      g.players.findIdx? (fun p => p == userId) = some i →
      (if (g.players.eraseIdx i).length = 0 then
        gridDisconnect g userId = (none, [])
      else
        gridDisconnect g userId =
          (some { g with
                  players := g.players.eraseIdx i,
                  playerNames := g.playerNames.filter (fun p => p.1 != userId) },
           [⟨.room, .playerDisconnected userId (g.players.eraseIdx i).length⟩,
            ⟨.room, .state g.board g.currentPlayer (g.players.eraseIdx i)
                (g.playerNames.filter (fun p => p.1 != userId)) false true .nullv⟩])) := by
  intro g userId i h
  simp only [gridDisconnect, h]
  split <;> rfl

theorem c3_grid_disconnect_removes_and_broadcasts_degraded_state_witness :
    gridDisconnect gameAB "u1" =
      (some { gameAB with players := ["u2"], playerNames := [("u2", "P2")] },
       [⟨.room, .playerDisconnected "u1" 1⟩,
        ⟨.room, .state gameAB.board gameAB.currentPlayer ["u2"] [("u2", "P2")]
            false true .nullv⟩]) := by
  have h := c3_grid_disconnect_removes_and_broadcasts_degraded_state gameAB "u1" 0 (by decide)
  rw [if_neg (by decide)] at h
  exact h.trans (by decide)

/-- C6 counterexample: the claim says every value of the random source yields
a fixed-length identifier.  The double `0.5` (base-36 digit list `[18]`) is
a value `Math.random()` can return, and it yields a 1-character identifier,
while a 6-digit value yields 6 characters — the length is not fixed. -/
theorem c6_room_id_not_fixed_length :
    (generateRoomId [(18 : Fin 36)]).length = 1 ∧
    (generateRoomId [1, 2, 3, 4, 5, 6]).length = 6 := by
  decide

/-- C6 (amended): every call to the room identifier generator returns an
uppercase alphanumeric string of length at most 6 (exactly 6 whenever the
random value has at least six base-36 fraction digits, but shorter for
short expansions such as 0.5, and empty for 0). -/
theorem c6_room_id_upper_alnum_le_6 :
    ∀ digits : List (Fin 36),
      (generateRoomId digits).length ≤ 6 ∧
      ∀ c ∈ generateRoomId digits, isUpperAlnum c = true := by
  intro digits
  constructor
  · unfold generateRoomId
    rw [List.length_map]
    exact List.length_take_le 6 ((randToString36 digits).drop 2)
  · intro c hc
    unfold generateRoomId randToString36 at hc
    by_cases hd : digits = []
    · simp [hd] at hc
    · rw [if_neg hd] at hc
      simp only [List.drop_succ_cons, List.drop_zero] at hc
      obtain ⟨x, hx, rfl⟩ := List.mem_map.mp hc
      have hx2 : x ∈ digits.map digit36Char := List.mem_of_mem_take hx
      obtain ⟨d, _, rfl⟩ := List.mem_map.mp hx2
      exact digit36Char_upper_alnum d

theorem c6_room_id_upper_alnum_le_6_witness :
    (generateRoomId [(18 : Fin 36)]).length ≤ 6 ∧
      isUpperAlnum ((['I']).headI) = true :=
  ⟨(c6_room_id_upper_alnum_le_6 [(18 : Fin 36)]).1,
   (c6_room_id_upper_alnum_le_6 [(18 : Fin 36)]).2 'I' (by decide)⟩

/-- C7: reset restores the initial board (grid) or the starting chess
position with the first mark / white to move and `gameOver` cleared,
preserves seats, display names and color assignments (and the
`gameStarted` flag), clears the chess move log and cached flags, and is a
no-op on an absent room. -/
theorem c7_reset_restores_initial_state :
    (∀ g : TttGame,
      tttReset (some g) =
        (some { g with
                board := List.replicate 9 none, currentPlayer := Mark.X,
                gameOver := false },
         [⟨.room, .state (List.replicate 9 none) Mark.X g.players g.playerNames
             g.gameStarted false .nullv⟩])) ∧
    tttReset none = (none, []) ∧
    (∀ (E : Engine) (g : ChessGame E.Pos),
      (chessReset E (some g)).1 =
        some { g with
               chess := E.init, currentPlayer := Color.white,
               gameOver := false, winner := none, moves := [], check := false,
               checkmate := false, stalemate := false }) ∧
    (∀ E : Engine, chessReset E none = (none, [])) :=
  ⟨fun _ => rfl, rfl, fun _ _ => rfl, fun _ => rfl⟩

/-- C8: `sanitizeMessage` strips markup tags, decodes the five named
entities, truncates to at most 200 characters and trims surrounding
whitespace, so its result never exceeds 200 characters; empty input yields
the empty string.  The concrete conjuncts exhibit tag removal, entity
decoding and trimming on sample inputs. -/
theorem c8_sanitize_contract :
    (∀ m : List Char, (sanitizeMessage m).length ≤ 200) ∧
    sanitizeMessage [] = [] ∧
    sanitizeMessage "  <b>hi</b> &amp; &lt;ok&gt;  ".toList = "hi & <ok>".toList ∧
    sanitizeMessage "&quot;&#39;".toList = ['"', '\x27'] ∧
    sanitizeMessage "  spaced  ".toList = "spaced".toList ∧
    sanitizeMessage "   ".toList = [] := by
  refine ⟨?_, by decide, by decide, by decide, by decide, by decide⟩
  intro m
  unfold sanitizeMessage
  by_cases hm : m = []
  · simp [hm]
  · rw [if_neg hm]
    calc (jsTrim _).length ≤ _ := jsTrim_length_le _
      _ ≤ 200 := List.length_take_le 200 _


/-- `gameAB` with the game already over. -/
def gameABOver : TttGame := { gameAB with gameOver := true }

/-- A started two-player chess room over the trivial engine. -/
def chessGameWB : ChessGame Unit :=
  { createChessGame unitEngine with
    players := ["w1", "b1"], playerNames := [("w1", "W"), ("b1", "B")],
    playerColors := [("w1", .white), ("b1", .black)], gameStarted := true }

/-- A one-player chess room over the trivial engine. -/
def chessGameW : ChessGame Unit :=
  { createChessGame unitEngine with
    players := ["w1"], playerNames := [("w1", "W")],
    playerColors := [("w1", .white)] }

lemma flip_if_not_over (b : Bool) (m : Mark) :
    (if b = false then flipMark m else m) = if b = true then m else flipMark m := by
  cases b <;> simp

/-- C2: a grid move on a room that is not over either leaves the room value
unchanged (a rejection) or produces a state whose `currentPlayer` is the
flipped mark unless the move ended the game, in which case it is unchanged;
once `gameOver` holds, no move changes the room value; reset sets
`currentPlayer` back to the first mark. -/
theorem c2_currentPlayer_alternation :
    (∀ (roomId : String) (g : TttGame) (userId : String) (idx : Int),
      (tttMove roomId (some g) userId (some idx)).1 = some g ∨
      ∃ g2, (tttMove roomId (some g) userId (some idx)).1 = some g2 ∧
        g2.currentPlayer =
          (if g2.gameOver then g.currentPlayer else flipMark g.currentPlayer)) ∧
    (∀ (roomId : String) (g : TttGame) (userId : String) (idx? : Option Int),
      g.gameOver = true → (tttMove roomId (some g) userId idx?).1 = some g) ∧
    (∀ g : TttGame, ((tttReset (some g)).1.map TttGame.currentPlayer) = some Mark.X) := by
  refine ⟨?_, ?_, fun g => rfl⟩
  · intro roomId g userId idx
    simp only [tttMove]
    repeat' (first
      | exact Or.inl rfl
      | exact Or.inr ⟨_, rfl, flip_if_not_over _ _⟩
      | split)
  · intro roomId g userId idx? hover
    cases idx? with
    | none => rfl
    | some i =>
      simp only [tttMove]
      repeat' (first | rfl | simp_all | split)

theorem c2_currentPlayer_alternation_witness :
    (tttMove "r" (some gameABOver) "u1" (some 0)).1 = some gameABOver :=
  c2_currentPlayer_alternation.2.1 "r" gameABOver "u1" (some 0) rfl


/-- The fresh grid room installed on first reference of a room id
(socket.js lines 42-49). -/
def freshTttGame : TttGame :=
  { board := List.replicate 9 none, currentPlayer := .X, players := [],
    playerNames := [], gameStarted := false, gameOver := false }

/-- The `tictactoe-join` handler (socket.js lines 31-87): reject on missing
fields; create the room lazily; an already-seated identity just gets the
state re-broadcast; a full room rejects; otherwise seat the player, emit
`tictactoe-joined` to the room (second seat, which also starts the game) or
`tictactoe-waiting` to the sender (first seat), then broadcast the state. -/
def tttJoin (roomId : String) (g? : Option TttGame) (userId userName : String) :
    Option TttGame × List (Emit TttEvent) :=
  if roomId = "" ∨ userName = "" ∨ userId = "" then
    (g?, [⟨.sender, .error "Invalid join data"⟩])
  else
    let game := match g? with
      | none => freshTttGame
      | some g => g
    if game.players.contains userId = false then
      if game.players.length < 2 then
        let game1 := { game with
          players := game.players ++ [userId],
          playerNames := aset game.playerNames userId userName }
        if game1.players.length = 2 then
          let game2 := { game1 with gameStarted := true }
          (some game2,
           [⟨.room, .joined roomId game2.players.length true⟩,
            ⟨.room, .state game2.board game2.currentPlayer game2.players game2.playerNames
                game2.gameStarted game2.gameOver .nullv⟩])
        else
          (some game1,
           [⟨.sender, .waiting roomId game1.players.length⟩,
            ⟨.room, .state game1.board game1.currentPlayer game1.players game1.playerNames
                game1.gameStarted game1.gameOver .nullv⟩])
      else (some game, [⟨.sender, .error "Room is full"⟩])
    else
      (some game,
       [⟨.room, .state game.board game.currentPlayer game.players game.playerNames
           game.gameStarted game.gameOver .nullv⟩])

/-- The `chess-chat-message` handler (socket.js lines 486-506): reject when
the room id is unknown, when the sender is not a transport-level member of
the room (`inRoom` models `socket.rooms.has(roomId)`), or when sanitization
yields the empty string; otherwise relay the sanitized text with a
timestamp (`ts` models `new Date().toISOString()`).  The room value is
never modified. -/
def chessChatMessage (P : Type) (g? : Option (ChessGame P)) (inRoom : Bool)
    (userName : String) (message : List Char) (ts : String) :
    Option (ChessGame P) × List (Emit ChessEvent) :=
  match g? with
  | none => (none, [⟨.sender, .error "Room does not exist"⟩])
  | some game =>
    if inRoom = false then
      (some game, [⟨.sender, .error "You are not in this room"⟩])
    else
      let sanitized := sanitizeMessage message
      if sanitized = [] then
        (some game, [⟨.sender, .error "Invalid message"⟩])
      else
        (some game, [⟨.room, .chatReceived userName sanitized ts⟩])

/-- C4: every rejected action, across every operation that can return an
error reply — grid join and move, chess create, join, move and chat —
leaves the stored room value unchanged and emits exactly one error event,
addressed to the sender only (equivalently: each handler either emits a
single sender-targeted error with the room unchanged, or emits no error
event at all); the two reset handlers emit no error events; and in
particular a chess move whose from-square holds no piece is rejected with
the no-piece-at-square error and changes nothing. -/
theorem c4_rejections_leave_state_unchanged :
    (∀ (roomId : String) (g? : Option TttGame) (userId : String) (idx? : Option Int),
      ((tttMove roomId g? userId idx?).1 = g? ∧
        ∃ m, (tttMove roomId g? userId idx?).2 = [⟨.sender, .error m⟩]) ∨
      (∀ m, Emit.mk Target.sender (TttEvent.error m) ∉ (tttMove roomId g? userId idx?).2)) ∧
    (∀ (roomId : String) (g? : Option TttGame) (userId userName : String),
      ((tttJoin roomId g? userId userName).1 = g? ∧
        ∃ m, (tttJoin roomId g? userId userName).2 = [⟨.sender, .error m⟩]) ∨
      (∀ m, Emit.mk Target.sender (TttEvent.error m) ∉
        (tttJoin roomId g? userId userName).2)) ∧
    (∀ (E : Engine) (roomId : String) (g? : Option (ChessGame E.Pos))
        (userId fromSq toSq : String) (promo : Option String) (now : Nat),
      ((chessMove E roomId g? userId fromSq toSq promo now).1 = g? ∧
        ∃ m, (chessMove E roomId g? userId fromSq toSq promo now).2 = [⟨.sender, .error m⟩]) ∨
      (∀ m, Emit.mk Target.sender (ChessEvent.error m) ∉
        (chessMove E roomId g? userId fromSq toSq promo now).2)) ∧
    (∀ (E : Engine) (userId userName : String),
      ((chessCreateRoom E userId userName).1 = none ∧
        ∃ m, (chessCreateRoom E userId userName).2 = [⟨.sender, .error m⟩]) ∨
      (∀ m, Emit.mk Target.sender (ChessEvent.error m) ∉
        (chessCreateRoom E userId userName).2)) ∧
    (∀ (E : Engine) (roomId : String) (g? : Option (ChessGame E.Pos))
        (userId userName : String),
      ((chessJoinRoom E roomId g? userId userName).1 = g? ∧
        ∃ m, (chessJoinRoom E roomId g? userId userName).2 = [⟨.sender, .error m⟩]) ∨
      (∀ m, Emit.mk Target.sender (ChessEvent.error m) ∉
        (chessJoinRoom E roomId g? userId userName).2)) ∧
    (∀ (P : Type) (g? : Option (ChessGame P)) (inRoom : Bool)
        (userName : String) (message : List Char) (ts : String),
      ((chessChatMessage P g? inRoom userName message ts).1 = g? ∧
        ∃ m, (chessChatMessage P g? inRoom userName message ts).2 = [⟨.sender, .error m⟩]) ∨
      (∀ m, Emit.mk Target.sender (ChessEvent.error m) ∉
        (chessChatMessage P g? inRoom userName message ts).2)) ∧
    (∀ (g? : Option TttGame) (m : String),
      Emit.mk Target.sender (TttEvent.error m) ∉ (tttReset g?).2) ∧
    (∀ (E : Engine) (g? : Option (ChessGame E.Pos)) (m : String),
      Emit.mk Target.sender (ChessEvent.error m) ∉ (chessReset E g?).2) ∧
    (∀ (E : Engine) (roomId : String) (g : ChessGame E.Pos)
        (userId fromSq toSq : String) (promo : Option String) (now : Nat),
      roomId ≠ "" → fromSq ≠ "" → toSq ≠ "" →
      g.gameStarted = true → g.gameOver = false →
      alookup g.playerColors userId = some g.currentPlayer →
      E.get g.chess fromSq = none →
      chessMove E roomId (some g) userId fromSq toSq promo now =
        (some g, [⟨.sender, .error ("No piece found at " ++ fromSq)⟩])) := by
  refine ⟨?_, ?_, ?_, ?_, ?_, ?_, ?_, ?_, ?_⟩
  · intro roomId g? userId idx?
    cases idx? with
    | none => exact Or.inl ⟨rfl, _, rfl⟩
    | some i =>
      simp only [tttMove]
      repeat' (first
        | exact Or.inl ⟨rfl, _, rfl⟩
        | (solve | (refine Or.inr ?_; intro m; simp))
        | split)
  · intro roomId g? userId userName
    cases g? with
    | none =>
      simp only [tttJoin]
      repeat' (first
        | exact Or.inl ⟨rfl, _, rfl⟩
        | (solve | (refine Or.inr ?_; intro m; simp))
        | (solve | simp_all [freshTttGame])
        | split)
    | some g =>
      simp only [tttJoin]
      repeat' (first
        | exact Or.inl ⟨rfl, _, rfl⟩
        | (solve | (refine Or.inr ?_; intro m; simp))
        | split)
  · intro E roomId g? userId fromSq toSq promo now
    simp only [chessMove]
    repeat' (first
      | exact Or.inl ⟨rfl, _, rfl⟩
      | (solve | (refine Or.inr ?_; intro m; simp))
      | split)
  · intro E userId userName
    simp only [chessCreateRoom]
    repeat' (first
      | exact Or.inl ⟨rfl, _, rfl⟩
      | (solve | (refine Or.inr ?_; intro m; simp))
      | split)
  · intro E roomId g? userId userName
    simp only [chessJoinRoom]
    repeat' (first
      | exact Or.inl ⟨rfl, _, rfl⟩
      | (solve | (refine Or.inr ?_; intro m; simp))
      | split)
  · intro P g? inRoom userName message ts
    simp only [chessChatMessage]
    repeat' (first
      | exact Or.inl ⟨rfl, _, rfl⟩
      | (solve | (refine Or.inr ?_; intro m; simp))
      | split)
  · intro g? m
    cases g? <;> simp [tttReset]
  · intro E g? m
    cases g? <;> simp [chessReset]
  · intro E roomId g userId fromSq toSq promo now hr hf ht hst hgo hcol hget
    simp [chessMove, validateAndExecuteMove, hr, hf, ht, hst, hgo, hcol, hget]

theorem c4_rejections_leave_state_unchanged_witness :
    chessMove unitEngine "R" (some chessGameWB) "w1" "e2" "e4" none 0 =
      (some chessGameWB, [⟨.sender, .error ("No piece found at " ++ "e2")⟩]) :=
  c4_rejections_leave_state_unchanged.2.2.2.2.2.2.2.2 unitEngine "R" chessGameWB "w1"
    "e2" "e4" none 0 (by decide) (by decide) (by decide) rfl rfl rfl rfl

/-- C5: when one of the two seated players of a chess room disconnects, the
stored room keeps `gameOver` and `winner` as they were, sets
`gameStarted := false`, removes the departing identity together with its
name and color while the other player keeps its seat and (by the last
conjunct) its color lookup, and the room is not deleted; when the last
remaining player disconnects, the room is deleted. -/
theorem c5_chess_disconnect_demotes_or_deletes :
    (∀ (E : Engine) (g : ChessGame E.Pos) (a b : String),
      g.players = [a, b] → a ≠ b →
      (chessDisconnect E g a).1 =
        some { g with
               players := [b], playerNames := adelete g.playerNames a,
               playerColors := adelete g.playerColors a, gameStarted := false } ∧
      (chessDisconnect E g b).1 =
        some { g with
               players := [a], playerNames := adelete g.playerNames b,
               playerColors := adelete g.playerColors b, gameStarted := false }) ∧
    (∀ (E : Engine) (g : ChessGame E.Pos) (c : String),
      g.players = [c] → (chessDisconnect E g c).1 = none) ∧
    (∀ (l : List (String × Color)) (u v : String), u ≠ v →
      alookup (adelete l u) v = alookup l v) := by
  refine ⟨?_, ?_, fun l u v h => alookup_adelete_ne l u v h⟩
  · intro E g a b hpl hne
    constructor
    · simp [chessDisconnect, hpl, List.findIdx?_cons]
    · simp [chessDisconnect, hpl, List.findIdx?_cons, hne]
  · intro E g c hpl
    simp [chessDisconnect, hpl, List.findIdx?_cons]

theorem c5_chess_disconnect_demotes_or_deletes_witness :
    (chessDisconnect unitEngine chessGameWB "w1").1 =
      some { chessGameWB with
             players := ["b1"], playerNames := adelete chessGameWB.playerNames "w1",
             playerColors := adelete chessGameWB.playerColors "w1", gameStarted := false } :=
  (c5_chess_disconnect_demotes_or_deletes.1 unitEngine chessGameWB "w1" "b1" rfl
    (by decide)).1

/-- The reachability scenario for C9 over the trivial engine: create a room
as uA (seated white), uB joins (seated black), uA disconnects, uC joins. -/
def chessScenarioTwoBlack : Option (ChessGame Unit) :=
  (((chessCreateRoom unitEngine "uA" "Alice").1.bind (fun g1 =>
      (chessJoinRoom unitEngine "ROOM" (some g1) "uB" "Bob").1)).bind (fun g2 =>
    (chessDisconnect unitEngine g2 "uA").1)).bind (fun g3 =>
      (chessJoinRoom unitEngine "ROOM" (some g3) "uC" "Cara").1)

/-- C9: every player newly seated through `chess-join-room` is assigned
black regardless of the colors already assigned; consequently, after the
white player leaves a two-player room, a fresh joiner is seated black and
the room reaches a state with two black players and no white player (the
concrete scenario over the trivial engine). -/
theorem c9_join_always_assigns_black :
    (∀ (E : Engine) (roomId : String) (g : ChessGame E.Pos) (userId userName : String),
      roomId ≠ "" → userName ≠ "" → userId ≠ "" →
      g.players.contains userId = false → g.players.length < 2 →
      ((chessJoinRoom E roomId (some g) userId userName).1.map
        (fun g2 => alookup g2.playerColors userId)) = some (some Color.black)) ∧
    (chessScenarioTwoBlack.map (fun g =>
      (alookup g.playerColors "uB", alookup g.playerColors "uC",
       g.playerColors.any (fun p => p.2 == Color.white)))) =
      some (some Color.black, some Color.black, false) := by
  constructor
  · intro E roomId g userId userName hr hn hu hcont hlen
    simp only [chessJoinRoom]
    rw [if_neg (by simp [hr, hn, hu])]
    rw [if_neg (by simp; simpa using hcont)]
    rw [if_neg (by omega)]
    simp [alookup_aset_self]
  · decide

theorem c9_join_always_assigns_black_witness :
    ((chessJoinRoom unitEngine "R" (some chessGameW) "b1" "B").1.map
      (fun g2 => alookup g2.playerColors "b1")) = some (some Color.black) :=
  c9_join_always_assigns_black.1 unitEngine "R" chessGameW "b1" "B"
    (by decide) (by decide) (by decide) (by decide) (by decide)

/-- C10: a grid move whose index is outside 0..8 on a 9-cell board of a
started, unfinished room is rejected with the cell-occupied error and
changes nothing; every move outcome preserves the board length; and a
successful move writes exactly one existing cell (an index below the board
length), so only indices 0 through 8 are ever written on a 9-cell board. -/
theorem c10_board_index_safety :
    (∀ (roomId : String) (g : TttGame) (userId : String) (i : Int),
      roomId ≠ "" → g.gameStarted = true → g.gameOver = false →
      g.board.length = 9 → (i < 0 ∨ 9 ≤ i) →
      tttMove roomId (some g) userId (some i) =
        (some g, [⟨.sender, .error "Cell already occupied"⟩])) ∧
    (∀ (roomId : String) (g? : Option TttGame) (userId : String) (idx? : Option Int),
      ((tttMove roomId g? userId idx?).1.map (fun g2 => g2.board.length)) =
        g?.map (fun g => g.board.length)) ∧
    (∀ (roomId : String) (g : TttGame) (userId : String) (i : Int),
      ((tttMove roomId (some g) userId (some i)).1.map TttGame.board = some g.board) ∨
      ∃ k : Nat, k < g.board.length ∧ i = (k : Int) ∧
        (tttMove roomId (some g) userId (some i)).1.map TttGame.board =
          some (g.board.set k (some g.currentPlayer))) := by
  refine ⟨?_, ?_, ?_⟩
  · intro roomId g userId i hr hst hgo hlen hrange
    have h3 : boardAt g.board i = none := by
      unfold boardAt
      rcases hrange with hneg | hge
      · rw [if_neg (by omega)]
      · rw [if_pos (by omega)]
        exact List.get?_eq_none.mpr (by omega)
    simp [tttMove, hr, hst, hgo, h3]
  · intro roomId g? userId idx?
    cases idx? with
    | none => rfl
    | some i =>
      cases g? with
      | none =>
        by_cases hr : roomId = "" <;> simp [tttMove, hr]
      | some g =>
        simp only [tttMove]
        repeat' split
        all_goals simp [List.length_set]
  · intro roomId g userId i
    simp only [tttMove]
    repeat' split
    all_goals try exact Or.inl rfl
    all_goals
      (right
       have hb' : boardAt g.board i = some none := of_not_not (by assumption)
       unfold boardAt at hb'
       by_cases hi : (0 : Int) ≤ i
       · rw [if_pos hi] at hb'
         obtain ⟨hlt, -⟩ := List.get?_eq_some.mp hb'
         exact ⟨i.toNat, hlt, (Int.toNat_of_nonneg hi).symm, rfl⟩
       · rw [if_neg hi] at hb'
         simp at hb')

theorem c10_board_index_safety_witness :
    tttMove "r" (some gameAB) "u1" (some 99) =
      (some gameAB, [⟨.sender, .error "Cell already occupied"⟩]) :=
  c10_board_index_safety.1 "r" gameAB "u1" 99 (by decide) rfl rfl (by decide) (by decide)

end ChessBackend
